import Mathlib

/-!
Shallow embedding of `singa_auto/container/kubernetes_operation.py`:
the Kubernetes container manager of singa-auto.  Remote Kubernetes API
calls are modelled by their per-invocation outcomes (`Nat → Except ε α`
gives the result of the n-th invocation of an operation), manifests
(Python dicts built with `setdefault` on fresh dictionaries, hence plain
field assignments) are modelled as Lean structures, and Python dicts
used as ordered inputs (`mounts`, `environment_vars`) are modelled as
association lists in iteration order.
-/

namespace SingaAuto

/-- `RETRY_WAIT_SECS = 1` from the source (the sleep between attempts;
it has no observable effect in this embedding). -/
def RETRY_WAIT_SECS : Nat := 1

/-- `RETRY_TIMES = 5` from the source. -/
def RETRY_TIMES : Nat := 5

/-- One iteration pass of the loop in `_retry`'s `retried_func`:
`for no in range(RETRY_TIMES + 1): try: return func(...) except: if no == RETRY_TIMES: raise e`.
`op n` is the outcome of the n-th invocation of the wrapped function.
The result is `(some r, count)` when the loop returned or raised `r`
after `count` invocations, and `(none, count)` when the iteration list
was exhausted without returning (Python would fall through and return
`None`; unreachable for the actual range used). -/
def retryAux (op : Nat → Except ε α) : List Nat → Option (Except ε α) × Nat
  | [] => (none, 0)
  | no :: rest =>
    match op no with
    | Except.ok a => (some (Except.ok a), 1)
    | Except.error e =>
      if no = RETRY_TIMES then (some (Except.error e), 1)
      else
        let r := retryAux op rest
        (r.1, r.2 + 1)

/-- The function returned by the `_retry` decorator: run the loop over
`range(RETRY_TIMES + 1)`. -/
def retried_func (op : Nat → Except ε α) : Option (Except ε α) × Nat :=
  retryAux op (List.range (RETRY_TIMES + 1))

/-- A `volumeMounts` entry of the container spec. -/
structure VolumeMount where
  name : String
  mountPath : String
deriving DecidableEq, Repr

/-- A `volumes` entry of the pod template spec (`hostPath` type). -/
structure Volume where
  name : String
  hostPath : String
deriving DecidableEq, Repr

/-- An `env` entry of the container spec. -/
structure EnvVar where
  name : String
  value : String
deriving DecidableEq, Repr

/-- The single container dict built by `_create_deployment_config`.
`resources` is `some limits` exactly when the source sets
`{'resources': {'limits': limits}}`. -/
structure Container where
  name : String
  image : String
  volumeMounts : List VolumeMount
  env : List EnvVar
  resources : Option (List (String × Nat))
deriving DecidableEq, Repr

/-- The Deployment manifest built by `_create_deployment_config`. -/
structure DeploymentConfig where
  apiVersion : String
  kind : String
  metadata_name : String
  metadata_labels : List (String × String)
  spec_replicas : Nat
  spec_selector_matchLabels : List (String × String)
  template_metadata_labels : List (String × String)
  containers : List Container
  volumes : List Volume
deriving DecidableEq, Repr

/-- The `for (k, v) in mounts.items()` loop of `_create_deployment_config`:
appends one `volumeMounts` entry and one `volumes` entry per mount, named
`'v' + str(mounts_count)`, with the container path `v` in the mount and
the host path `k` in the volume. -/
def buildVolumeMounts : List (String × String) → Nat → List VolumeMount × List Volume
  | [], _ => ([], [])
  | (k, v) :: rest, mounts_count =>
    let r := buildVolumeMounts rest (mounts_count + 1)
    (VolumeMount.mk ("v" ++ toString mounts_count) v :: r.1,
     Volume.mk ("v" ++ toString mounts_count) k :: r.2)

/-- `_create_deployment_config` of `KubernetesContainerManager`.  The
source builds the dicts with `setdefault` on freshly created dicts, so
every `setdefault` is a plain assignment; `args` and `publish_port` are
accepted but never written into the manifest. -/
def _create_deployment_config (service_name docker_image : String) (replicas : Nat)
    (args : List String) (environment_vars : List (String × String))
    (mounts : List (String × String)) (publish_port : Option (Nat × Nat))
    (gpus : Nat) : DeploymentConfig :=
  let vm := buildVolumeMounts mounts 0
  let env := environment_vars.map (fun kv => EnvVar.mk kv.1 kv.2)
  let container : Container :=
    { name := service_name
      image := docker_image
      volumeMounts := vm.1
      env := env
      resources := if gpus > 0 then some [("nvidia.com/gpu", gpus)] else none }
  { apiVersion := "apps/v1"
    kind := "Deployment"
    metadata_name := service_name
    metadata_labels := [("name", service_name)]
    spec_replicas := replicas
    spec_selector_matchLabels := [("name", service_name)]
    template_metadata_labels := [("name", service_name)]
    containers := [container]
    volumes := vm.2 }

/-- The ordered list of keys the source writes into the `container` dict
of `_create_deployment_config` (`name`, `image`, `volumeMounts`, `env`,
and `resources` only when `gpus > 0`); no other key is ever assigned. -/
def container_dict_keys (gpus : Nat) : List String :=
  ["name", "image", "volumeMounts", "env"] ++ (if gpus > 0 then ["resources"] else [])

/-- A `ports` entry of the Service manifest spec. -/
structure PortRule where
  port : Nat
  targetPort : Nat
  nodePort : Nat
deriving DecidableEq, Repr

/-- The Service manifest built by `_create_service_config`.  `spec_type`
and `spec_ports` are set only under `publish_port is not None`. -/
structure ServiceConfig where
  apiVersion : String
  kind : String
  metadata_name : String
  metadata_labels : List (String × String)
  spec_type : Option String
  spec_ports : List PortRule
  spec_selector : List (String × String)
deriving DecidableEq, Repr

/-- `_create_service_config` of `KubernetesContainerManager`. -/
def _create_service_config (service_name docker_image : String) (replicas : Nat)
    (args : List String) (environment_vars : List (String × String))
    (mounts : List (String × String)) (publish_port : Option (Nat × Nat))
    (gpus : Nat) : ServiceConfig :=
  { apiVersion := "v1"
    kind := "Service"
    metadata_name := service_name
    metadata_labels := [("name", service_name)]
    spec_type :=
      match publish_port with
      | some _ => some "NodePort"
      | none => none
    spec_ports :=
      match publish_port with
      | some pp => [PortRule.mk pp.2 pp.2 pp.1]
      | none => []
    spec_selector := [("name", service_name)] }

/-- The `info` dict assembled by `create_service`. -/
structure ServiceInfo where
  node_id : String
  gpu_nos : Nat
  service_name : String
  replicas : Nat
deriving DecidableEq, Repr

/-- Modelled from the spec: `ContainerService` is defined in
`singa_auto/container/container_manager.py`, which is not among the
provided sources.  Per the data model of the spec, its constructor takes
(id, hostname, exposed_port, info) in this order, with `id` equal to the
service name. -/
structure ContainerService where
  id : String
  hostname : String
  exposed_port : Option Nat
  info : ServiceInfo
deriving DecidableEq, Repr

/-- `create_service` of `KubernetesContainerManager`.  `cs_op body n` /
`cd_op body n` is the outcome of the n-th invocation of
`create_namespaced_service` / `create_namespaced_deployment` with that
manifest body; both are called through `_retry`.  Returns the Python
result (the `ContainerService`, or the exception propagated by the retry
wrapper) together with the number of invocations of each of the two
remote operations. -/
def create_service (cs_op : ServiceConfig → Nat → Except ε Unit)
    (cd_op : DeploymentConfig → Nat → Except ε Unit)
    (service_name docker_image : String) (replicas : Nat) (args : List String)
    (environment_vars : List (String × String)) (mounts : List (String × String))
    (publish_port : Option (Nat × Nat)) (gpus : Nat) :
    Except ε ContainerService × Nat × Nat :=
  let hostname := service_name
  let info : ServiceInfo :=
    { node_id := "default"
      gpu_nos := gpus
      service_name := service_name
      replicas := replicas }
  match publish_port with
  | none =>
    let deployment_config := _create_deployment_config service_name docker_image
      replicas args environment_vars mounts publish_port gpus
    (match retried_func (cd_op deployment_config) with
     | (some (Except.error e), c2) => (Except.error e, 0, c2)
     | (_, c2) =>
       (Except.ok (ContainerService.mk service_name hostname none info), 0, c2))
  | some p =>
    let service_config := _create_service_config service_name docker_image
      replicas args environment_vars mounts publish_port gpus
    (match retried_func (cs_op service_config) with
     | (some (Except.error e), c1) => (Except.error e, c1, 0)
     | (_, c1) =>
       let deployment_config := _create_deployment_config service_name docker_image
         replicas args environment_vars mounts publish_port gpus
       match retried_func (cd_op deployment_config) with
       | (some (Except.error e), c2) => (Except.error e, c1, c2)
       | (_, c2) =>
         (Except.ok (ContainerService.mk service_name hostname (some p.1) info), c1, c2))

/-- A remote call attempted by `destroy_service`, in order. -/
inductive DestroyCall where
  | deleteDeployment : String → DestroyCall
  | deleteService : String → DestroyCall
deriving DecidableEq, Repr

/-- `destroy_service` of `KubernetesContainerManager`: delete the
Deployment then the Service by `service.id`, each by a single direct
(un-retried) call; the first failure propagates.  `dd` / `ds` are the
outcomes of the single invocation of each delete; the returned list is
the trace of calls actually issued. -/
def destroy_service (dd ds : Except ε Unit) (service : ContainerService) :
    Except ε Unit × List DestroyCall :=
  match dd with
  | Except.error e => (Except.error e, [DestroyCall.deleteDeployment service.id])
  | Except.ok _ =>
    match ds with
    | Except.error e =>
      (Except.error e,
       [DestroyCall.deleteDeployment service.id, DestroyCall.deleteService service.id])
    | Except.ok _ =>
      (Except.ok (),
       [DestroyCall.deleteDeployment service.id, DestroyCall.deleteService service.id])

/-- The `backend` dict of one input path rule of the ingress body. -/
structure PathBackend where
  serviceName : String
  servicePort : Nat
deriving DecidableEq, Repr

/-- One entry of `ingress_body["spec"]["rules"][i]["http"]["paths"]`. -/
structure PathInfo where
  path : String
  backend : PathBackend
deriving DecidableEq, Repr

/-- One entry of `ingress_body["spec"]["rules"]`. -/
structure IngressBodyRule where
  http_paths : List PathInfo
deriving DecidableEq, Repr

/-- The abstract ingress body passed to `update_ingress`
(its `["spec"]["rules"]` list). -/
structure IngressBody where
  rules : List IngressBodyRule
deriving DecidableEq, Repr

/-- A built `NetworkingV1beta1HTTPIngressPath` object. -/
structure HTTPIngressPath where
  path : String
  backend_serviceName : String
  backend_servicePort : Nat
deriving DecidableEq, Repr

/-- The `NetworkingV1beta1Ingress` manifest built by `update_ingress`:
name plus the rule list, one inner list of paths per rule (the source
always builds exactly one rule). -/
structure IngressManifest where
  metadata_name : String
  rules : List (List HTTPIngressPath)
deriving DecidableEq, Repr

/-- `_update_ingress_paths`: converts
`ingress_body["spec"]["rules"][0]["http"]["paths"]` in order, one
`HTTPIngressPath` per input path.  `none` models the Python `IndexError`
raised by `rules[0]` when the rule list is empty. -/
def _update_ingress_paths (ingress_body : IngressBody) : Option (List HTTPIngressPath) :=
  match ingress_body.rules with
  | [] => none
  | r0 :: _ =>
    some (r0.http_paths.map (fun p =>
      HTTPIngressPath.mk p.path p.backend.serviceName p.backend.servicePort))

/-- How a call of `update_ingress` fails: `indexErr` is the Python
`IndexError` on an empty input rule list, `badStatus` is the
`ServiceRequestError("ingress response code is not 200")`, and `remote`
wraps an exception raised by one of the remote calls. -/
inductive UIError (ε : Type u) where
  | indexErr : UIError ε
  | badStatus : UIError ε
  | remote : ε → UIError ε
deriving DecidableEq, Repr

/-- A remote call issued by `update_ingress`, in order. -/
inductive UICall where
  | list : UICall
  | replace : String → IngressManifest → UICall
  | create : IngressManifest → UICall
deriving DecidableEq, Repr

/-- `update_ingress` of `KubernetesContainerManager`: build the paths
and the one-rule manifest, list the live ingresses
(`listing` is the outcome of that single call: the live names together
with the HTTP status code), raise `ServiceRequestError` unless the
status is 200, then replace the manifest if `ingress_name` is among the
live names and create it otherwise.  `replaceRes` / `createRes` are the
outcomes of the single invocation of the replace / create call; the
returned list is the trace of remote calls actually issued. -/
def update_ingress (listing : Except ε (List String × Nat))
    (replaceRes createRes : Except ε Unit)
    (ingress_name : String) (ingress_body : IngressBody) :
    Except (UIError ε) Unit × List UICall :=
  match _update_ingress_paths ingress_body with
  | none => (Except.error UIError.indexErr, [])
  | some paths =>
    let body : IngressManifest := IngressManifest.mk ingress_name [paths]
    match listing with
    | Except.error e => (Except.error (UIError.remote e), [UICall.list])
    | Except.ok (ingress_names, status) =>
      if status ≠ 200 then (Except.error UIError.badStatus, [UICall.list])
      else if ingress_name ∈ ingress_names then
        ((match replaceRes with
          | Except.error e => Except.error (UIError.remote e)
          | Except.ok _ => Except.ok ()),
         [UICall.list, UICall.replace ingress_name body])
      else
        ((match createRes with
          | Except.error e => Except.error (UIError.remote e)
          | Except.ok _ => Except.ok ()),
         [UICall.list, UICall.create body])

/-- The concrete iteration list of the retry loop. -/
theorem range_retry_times : List.range (RETRY_TIMES + 1) = [0, 1, 2, 3, 4, 5] := by
  decide

/-- C1: a wrapped operation failing on every invocation is invoked
exactly `RETRY_TIMES + 1 = 6` times and the last raised error is
propagated unmodified; an operation whose n-th invocation succeeds
(n ≤ RETRY_TIMES, all earlier invocations failing) is invoked exactly
n + 1 times and its successful result is returned. -/
theorem retry_attempts_and_propagation (op : Nat → Except ε α) (errs : Nat → ε) :
    ((∀ n, op n = Except.error (errs n)) →
      retried_func op = (some (Except.error (errs RETRY_TIMES)), RETRY_TIMES + 1))
    ∧ (∀ n a, n ≤ RETRY_TIMES → op n = Except.ok a →
        (∀ m, m < n → op m = Except.error (errs m)) →
        retried_func op = (some (Except.ok a), n + 1)) := by
  constructor
  · intro h
    simp [retried_func, range_retry_times, retryAux, h 0, h 1, h 2, h 3, h 4, h 5,
      RETRY_TIMES]
  · intro n a hn hok hprev
    have hn5 : n ≤ 5 := hn
    interval_cases n
    · simp [retried_func, range_retry_times, retryAux, hok, RETRY_TIMES]
    · simp [retried_func, range_retry_times, retryAux, hok, hprev 0 (by omega),
        RETRY_TIMES]
    · simp [retried_func, range_retry_times, retryAux, hok, hprev 0 (by omega),
        hprev 1 (by omega), RETRY_TIMES]
    · simp [retried_func, range_retry_times, retryAux, hok, hprev 0 (by omega),
        hprev 1 (by omega), hprev 2 (by omega), RETRY_TIMES]
    · simp [retried_func, range_retry_times, retryAux, hok, hprev 0 (by omega),
        hprev 1 (by omega), hprev 2 (by omega), hprev 3 (by omega), RETRY_TIMES]
    · simp [retried_func, range_retry_times, retryAux, hok, hprev 0 (by omega),
        hprev 1 (by omega), hprev 2 (by omega), hprev 3 (by omega),
        hprev 4 (by omega), RETRY_TIMES]

/-- Witness for `retry_attempts_and_propagation`: an always-failing
operation is invoked 6 times and the error propagated; an operation
succeeding on its third invocation is invoked 3 times and its result
returned. -/
theorem retry_attempts_and_propagation_witness :
    retried_func (fun _ => (Except.error "boom" : Except String Nat))
      = (some (Except.error "boom"), 6)
    ∧ retried_func (fun n => if n < 2 then (Except.error "boom" : Except String Nat)
        else Except.ok 7) = (some (Except.ok 7), 3) :=
  ⟨(retry_attempts_and_propagation (fun _ => Except.error "boom")
      (fun _ => "boom")).1 (fun _ => rfl),
   (retry_attempts_and_propagation
      (fun n => if n < 2 then (Except.error "boom" : Except String Nat) else Except.ok 7)
      (fun _ => "boom")).2 2 7 (by decide) (by simp)
      (fun m hm => by simp [hm])⟩

/-- Closed form of the mounts loop: starting the counter at `c`, the
i-th mount entry yields the volume-mount `(v(c+i), container path)` and
the volume `(v(c+i), host path)`. -/
theorem buildVolumeMounts_eq (ms : List (String × String)) (c : Nat) :
    buildVolumeMounts ms c =
      (ms.mapIdx (fun i kv => VolumeMount.mk ("v" ++ toString (c + i)) kv.2),
       ms.mapIdx (fun i kv => Volume.mk ("v" ++ toString (c + i)) kv.1)) := by
  induction ms generalizing c with
  | nil => simp [buildVolumeMounts]
  | cons kv rest ih =>
    obtain ⟨k, v⟩ := kv
    have hf1 : (fun (i : Nat) (x : String × String) =>
          VolumeMount.mk ("v" ++ toString (c + 1 + i)) x.2)
        = (fun (i : Nat) (x : String × String) =>
          VolumeMount.mk ("v" ++ toString (c + (i + 1))) x.2) := by
      funext i x
      have harith : c + 1 + i = c + (i + 1) := by omega
      rw [harith]
    have hf2 : (fun (i : Nat) (x : String × String) =>
          Volume.mk ("v" ++ toString (c + 1 + i)) x.1)
        = (fun (i : Nat) (x : String × String) =>
          Volume.mk ("v" ++ toString (c + (i + 1))) x.1) := by
      funext i x
      have harith : c + 1 + i = c + (i + 1) := by omega
      rw [harith]
    simp only [buildVolumeMounts, ih (c + 1), List.mapIdx_cons, Nat.add_zero,
      hf1, hf2]

/-- C2: the Deployment manifest carries exactly one volume and one
volume-mount per `mounts` entry, named `v0..v(N-1)` in iteration order,
the i-th volume holding the i-th host path and the i-th volume-mount (in
the manifest's single container) holding the i-th container path; an
empty mapping yields empty volume and mount lists. -/
theorem mounts_volume_mount_pairing (service_name docker_image : String)
    (replicas : Nat) (args : List String)
    (environment_vars mounts : List (String × String))
    (publish_port : Option (Nat × Nat)) (gpus : Nat) :
    (_create_deployment_config service_name docker_image replicas args
        environment_vars mounts publish_port gpus).volumes
      = mounts.mapIdx (fun i kv => Volume.mk ("v" ++ toString i) kv.1)
    ∧ (∃ c, (_create_deployment_config service_name docker_image replicas args
        environment_vars mounts publish_port gpus).containers = [c]
        ∧ c.volumeMounts
          = mounts.mapIdx (fun i kv => VolumeMount.mk ("v" ++ toString i) kv.2))
    ∧ (_create_deployment_config service_name docker_image replicas args
        environment_vars mounts publish_port gpus).volumes.length = mounts.length := by
  refine ⟨?_, ⟨_, rfl, ?_⟩, ?_⟩ <;>
    simp [_create_deployment_config, buildVolumeMounts_eq]

/-- C4: `gpus = 0` leaves the container without any `resources` section;
`gpus = k > 0` attaches a `resources` section whose limits hold exactly
the single entry `nvidia.com/gpu: k`. -/
theorem gpu_resource_policy (service_name docker_image : String) (replicas : Nat)
    (args : List String) (environment_vars mounts : List (String × String))
    (publish_port : Option (Nat × Nat)) (gpus : Nat) :
    ∃ c, (_create_deployment_config service_name docker_image replicas args
        environment_vars mounts publish_port gpus).containers = [c]
      ∧ (gpus = 0 → c.resources = none)
      ∧ (0 < gpus → c.resources = some [("nvidia.com/gpu", gpus)]
          ∧ ∀ l, c.resources = some l → l.length = 1) := by
  refine ⟨_, rfl, ?_, ?_⟩
  · intro h
    simp [h]
  · intro h
    constructor
    · simp [h]
    · intro l hl
      simp [h] at hl
      simp [← hl]

/-- Witness for `gpu_resource_policy` at `gpus = 0` and `gpus = 3`. -/
theorem gpu_resource_policy_witness :
    (∃ c, (_create_deployment_config "svc1" "img:1" 1 [] [] [] none 0).containers = [c]
      ∧ c.resources = none)
    ∧ (∃ c, (_create_deployment_config "svc1" "img:1" 1 [] [] [] none 3).containers = [c]
      ∧ c.resources = some [("nvidia.com/gpu", 3)]) := by
  constructor
  · obtain ⟨c, hc, h0, _⟩ := gpu_resource_policy "svc1" "img:1" 1 [] [] [] none 0
    exact ⟨c, hc, h0 rfl⟩
  · obtain ⟨c, hc, _, h1⟩ := gpu_resource_policy "svc1" "img:1" 1 [] [] [] none 3
    exact ⟨c, hc, (h1 (by decide)).1⟩

/-- C8 (code bug): the Deployment manifest is entirely independent of
the `args` parameter — the source accepts the launch arguments but never
writes them into the container dict, whose only keys are `name`,
`image`, `volumeMounts`, `env` and (with GPUs) `resources`; no `args` or
`command` key exists, so the launch args appear nowhere in the manifest,
contradicting the specified workload manifest contents. -/
theorem deployment_config_ignores_args (service_name docker_image : String)
    (replicas : Nat) (args : List String)
    (environment_vars mounts : List (String × String))
    (publish_port : Option (Nat × Nat)) (gpus : Nat) :
    _create_deployment_config service_name docker_image replicas args
        environment_vars mounts publish_port gpus
      = _create_deployment_config service_name docker_image replicas []
        environment_vars mounts publish_port gpus
    ∧ "args" ∉ container_dict_keys gpus
    ∧ "command" ∉ container_dict_keys gpus := by
  refine ⟨rfl, ?_, ?_⟩ <;>
  · rcases Nat.eq_zero_or_pos gpus with h | h <;>
      simp [container_dict_keys, h, gt_iff_lt]

/-- Witness for `deployment_config_ignores_args`: a request carrying the
launch argument list `["serve"]` produces the very manifest produced
with no launch arguments at all. -/
theorem deployment_config_ignores_args_witness :
    _create_deployment_config "svc1" "img:1" 1 ["serve"] [] [] none 0
      = _create_deployment_config "svc1" "img:1" 1 [] [] [] none 0
    ∧ "args" ∉ container_dict_keys 0 :=
  ⟨(deployment_config_ignores_args "svc1" "img:1" 1 ["serve"] [] [] none 0).1,
   (deployment_config_ignores_args "svc1" "img:1" 1 ["serve"] [] [] none 0).2.1⟩

/-- C3: with `publish_port = none`, `create_service` never invokes
network-service creation (invocation count 0) and only creates the
workload (through the retry wrapper); with `publish_port` present the
network-service creation runs first through the retry wrapper (its
invocation count is the retry wrapper's), a final network-service
failure propagates with the workload creation never attempted, and
otherwise the workload creation runs through the retry wrapper too. -/
theorem create_service_exposure_conditional
    (cs_op : ServiceConfig → Nat → Except ε Unit)
    (cd_op : DeploymentConfig → Nat → Except ε Unit)
    (service_name docker_image : String) (replicas : Nat) (args : List String)
    (environment_vars mounts : List (String × String)) (gpus : Nat) :
    ((create_service cs_op cd_op service_name docker_image replicas args
        environment_vars mounts none gpus).2.1 = 0)
    ∧ ((create_service cs_op cd_op service_name docker_image replicas args
        environment_vars mounts none gpus).2.2
      = (retried_func (cd_op (_create_deployment_config service_name docker_image
          replicas args environment_vars mounts none gpus))).2)
    ∧ (∀ p : Nat × Nat,
        ((create_service cs_op cd_op service_name docker_image replicas args
            environment_vars mounts (some p) gpus).2.1
          = (retried_func (cs_op (_create_service_config service_name docker_image
              replicas args environment_vars mounts (some p) gpus))).2)
        ∧ (∀ e, (retried_func (cs_op (_create_service_config service_name docker_image
              replicas args environment_vars mounts (some p) gpus))).1
              = some (Except.error e) →
            (create_service cs_op cd_op service_name docker_image replicas args
                environment_vars mounts (some p) gpus).1 = Except.error e
            ∧ (create_service cs_op cd_op service_name docker_image replicas args
                environment_vars mounts (some p) gpus).2.2 = 0)
        ∧ ((∀ e, (retried_func (cs_op (_create_service_config service_name docker_image
              replicas args environment_vars mounts (some p) gpus))).1
              ≠ some (Except.error e)) →
            (create_service cs_op cd_op service_name docker_image replicas args
                environment_vars mounts (some p) gpus).2.2
              = (retried_func (cd_op (_create_deployment_config service_name docker_image
                  replicas args environment_vars mounts (some p) gpus))).2)) := by
  refine ⟨?_, ?_, ?_⟩
  · rcases h2 : retried_func (cd_op (_create_deployment_config service_name docker_image
        replicas args environment_vars mounts none gpus)) with ⟨o2, c2⟩
    rcases o2 with _ | r2
    · simp [create_service, h2]
    · rcases r2 with a | e <;> simp [create_service, h2]
  · rcases h2 : retried_func (cd_op (_create_deployment_config service_name docker_image
        replicas args environment_vars mounts none gpus)) with ⟨o2, c2⟩
    rcases o2 with _ | r2
    · simp [create_service, h2]
    · rcases r2 with a | e <;> simp [create_service, h2]
  · intro p
    rcases h1 : retried_func (cs_op (_create_service_config service_name docker_image
        replicas args environment_vars mounts (some p) gpus)) with ⟨o1, c1⟩
    refine ⟨?_, ?_, ?_⟩
    · rcases o1 with _ | r1
      · rcases h2 : retried_func (cd_op (_create_deployment_config service_name
            docker_image replicas args environment_vars mounts (some p) gpus))
          with ⟨o2, c2⟩
        rcases o2 with _ | r2
        · simp [create_service, h1, h2]
        · rcases r2 with a2 | u2 <;> simp [create_service, h1, h2]
      · rcases r1 with a1 | u1
        · simp [create_service, h1]
        · rcases h2 : retried_func (cd_op (_create_deployment_config service_name
              docker_image replicas args environment_vars mounts (some p) gpus))
            with ⟨o2, c2⟩
          rcases o2 with _ | r2
          · simp [create_service, h1, h2]
          · rcases r2 with a2 | u2 <;> simp [create_service, h1, h2]
    · intro e he
      have he2 : o1 = some (Except.error e) := he
      subst he2
      simp [create_service, h1]
    · intro hne
      rcases o1 with _ | r1
      · rcases h2 : retried_func (cd_op (_create_deployment_config service_name
            docker_image replicas args environment_vars mounts (some p) gpus))
          with ⟨o2, c2⟩
        rcases o2 with _ | r2
        · simp [create_service, h1, h2]
        · rcases r2 with a2 | u2 <;> simp [create_service, h1, h2]
      · rcases r1 with a1 | u1
        · exact absurd rfl (hne a1)
        · rcases h2 : retried_func (cd_op (_create_deployment_config service_name
              docker_image replicas args environment_vars mounts (some p) gpus))
            with ⟨o2, c2⟩
          rcases o2 with _ | r2
          · simp [create_service, h1, h2]
          · rcases r2 with a2 | u2 <;> simp [create_service, h1, h2]

/-- Witness for `create_service_exposure_conditional`: with no published
port the network-service create is never invoked; with a published port
and a network-service creation that keeps failing, the error propagates
and the workload creation is never attempted. -/
theorem create_service_exposure_conditional_witness :
    ((create_service (fun _ _ => (Except.ok () : Except String Unit))
        (fun _ _ => Except.ok ()) "svc1" "img:1" 1 [] [] [] none 0).2.1 = 0)
    ∧ ((create_service (fun _ _ => (Except.error "se" : Except String Unit))
        (fun _ _ => Except.ok ()) "svc1" "img:1" 1 [] [] [] (some (30080, 8080)) 0).1
        = Except.error "se"
      ∧ (create_service (fun _ _ => (Except.error "se" : Except String Unit))
        (fun _ _ => Except.ok ()) "svc1" "img:1" 1 [] [] [] (some (30080, 8080)) 0).2.2
        = 0) :=
  ⟨(create_service_exposure_conditional (fun _ _ => (Except.ok () : Except String Unit))
      (fun _ _ => Except.ok ()) "svc1" "img:1" 1 [] [] [] 0).1,
   ((create_service_exposure_conditional
      (fun _ _ => (Except.error "se" : Except String Unit))
      (fun _ _ => Except.ok ()) "svc1" "img:1" 1 [] [] [] 0).2.2
      (30080, 8080)).2.1 "se" rfl⟩

/-- C7: with `publish_port = (30080, 8080)` the Service manifest has
type NodePort and exactly the one port rule
`{port: 8080, targetPort: 8080, nodePort: 30080}`, and a successful
`create_service` returns a `ContainerService` with
`exposed_port = 30080`; with `publish_port = none` the returned
`ContainerService` has `exposed_port = none`. -/
theorem publish_port_node_port_rule
    (cs_op : ServiceConfig → Nat → Except ε Unit)
    (cd_op : DeploymentConfig → Nat → Except ε Unit)
    (service_name docker_image : String) (replicas : Nat) (args : List String)
    (environment_vars mounts : List (String × String)) (gpus : Nat) :
    ((_create_service_config service_name docker_image replicas args environment_vars
        mounts (some (30080, 8080)) gpus).spec_type = some "NodePort")
    ∧ ((_create_service_config service_name docker_image replicas args environment_vars
        mounts (some (30080, 8080)) gpus).spec_ports = [PortRule.mk 8080 8080 30080])
    ∧ (∀ svc, (create_service cs_op cd_op service_name docker_image replicas args
        environment_vars mounts (some (30080, 8080)) gpus).1 = Except.ok svc →
        svc.exposed_port = some 30080)
    ∧ (∀ svc, (create_service cs_op cd_op service_name docker_image replicas args
        environment_vars mounts none gpus).1 = Except.ok svc →
        svc.exposed_port = none) := by
  refine ⟨rfl, rfl, ?_, ?_⟩
  · intro svc h
    rcases h1 : retried_func (cs_op (_create_service_config service_name docker_image
        replicas args environment_vars mounts (some (30080, 8080)) gpus)) with ⟨o1, c1⟩
    rcases o1 with _ | r1
    · rcases h2 : retried_func (cd_op (_create_deployment_config service_name
          docker_image replicas args environment_vars mounts (some (30080, 8080)) gpus))
        with ⟨o2, c2⟩
      rcases o2 with _ | r2
      · simp [create_service, h1, h2] at h
        subst h
        rfl
      · rcases r2 with a2 | u2
        · simp [create_service, h1, h2] at h
        · simp [create_service, h1, h2] at h
          subst h
          rfl
    · rcases r1 with a1 | u1
      · simp [create_service, h1] at h
      · rcases h2 : retried_func (cd_op (_create_deployment_config service_name
            docker_image replicas args environment_vars mounts
            (some (30080, 8080)) gpus)) with ⟨o2, c2⟩
        rcases o2 with _ | r2
        · simp [create_service, h1, h2] at h
          subst h
          rfl
        · rcases r2 with a2 | u2
          · simp [create_service, h1, h2] at h
          · simp [create_service, h1, h2] at h
            subst h
            rfl
  · intro svc h
    rcases h2 : retried_func (cd_op (_create_deployment_config service_name
        docker_image replicas args environment_vars mounts none gpus)) with ⟨o2, c2⟩
    rcases o2 with _ | r2
    · simp [create_service, h2] at h
      subst h
      rfl
    · rcases r2 with a2 | u2
      · simp [create_service, h2] at h
      · simp [create_service, h2] at h
        subst h
        rfl

/-- Witness for `publish_port_node_port_rule`: the successful run with
publish port `(30080, 8080)` returns `exposed_port = 30080`. -/
theorem publish_port_node_port_rule_witness :
    ((_create_service_config "svc1" "img:1" 1 [] [] [] (some (30080, 8080)) 0).spec_ports
      = [PortRule.mk 8080 8080 30080])
    ∧ ((create_service (fun _ _ => (Except.ok () : Except String Unit))
        (fun _ _ => Except.ok ()) "svc1" "img:1" 1 [] [] []
        (some (30080, 8080)) 0).1
      = Except.ok (ContainerService.mk "svc1" "svc1" (some 30080)
          (ServiceInfo.mk "default" 0 "svc1" 1)))
    ∧ (ContainerService.mk "svc1" "svc1" (some 30080)
        (ServiceInfo.mk "default" 0 "svc1" 1)).exposed_port = some 30080 :=
  ⟨(publish_port_node_port_rule (fun _ _ => (Except.ok () : Except String Unit))
      (fun _ _ => Except.ok ()) "svc1" "img:1" 1 [] [] [] 0).2.1,
   rfl,
   (publish_port_node_port_rule (fun _ _ => (Except.ok () : Except String Unit))
      (fun _ _ => Except.ok ()) "svc1" "img:1" 1 [] [] [] 0).2.2.1
     (ContainerService.mk "svc1" "svc1" (some 30080)
       (ServiceInfo.mk "default" 0 "svc1" 1)) rfl⟩

/-- C5: when the live listing succeeds with status 200, `update_ingress`
issues exactly one replace call (of the whole freshly built rule-set
manifest) and no create call if `ingress_name` is among the live names,
and exactly one create call and no replace call otherwise. -/
theorem update_ingress_create_or_replace (names : List String)
    (replaceRes createRes : Except ε Unit) (ingress_name : String)
    (r0 : IngressBodyRule) (rest : List IngressBodyRule) :
    (ingress_name ∈ names →
      (update_ingress (Except.ok (names, 200)) replaceRes createRes ingress_name
          (IngressBody.mk (r0 :: rest))).2
        = [UICall.list, UICall.replace ingress_name (IngressManifest.mk ingress_name
            [r0.http_paths.map (fun p => HTTPIngressPath.mk p.path
              p.backend.serviceName p.backend.servicePort)])])
    ∧ (ingress_name ∉ names →
      (update_ingress (Except.ok (names, 200)) replaceRes createRes ingress_name
          (IngressBody.mk (r0 :: rest))).2
        = [UICall.list, UICall.create (IngressManifest.mk ingress_name
            [r0.http_paths.map (fun p => HTTPIngressPath.mk p.path
              p.backend.serviceName p.backend.servicePort)])]) := by
  constructor <;> intro h <;> simp [update_ingress, _update_ingress_paths, h]

/-- Witness for `update_ingress_create_or_replace`: with live names
`["ing1"]`, updating `ing1` issues a replace and updating `ing2` issues
a create. -/
theorem update_ingress_create_or_replace_witness :
    ((update_ingress (Except.ok (ε := String) (["ing1"], 200)) (Except.ok ())
        (Except.ok ()) "ing1"
        (IngressBody.mk [IngressBodyRule.mk [PathInfo.mk "/x"
          (PathBackend.mk "svc1" 8080)]])).2
      = [UICall.list, UICall.replace "ing1" (IngressManifest.mk "ing1"
          [[HTTPIngressPath.mk "/x" "svc1" 8080]])])
    ∧ ((update_ingress (Except.ok (ε := String) (["ing1"], 200)) (Except.ok ())
        (Except.ok ()) "ing2"
        (IngressBody.mk [IngressBodyRule.mk [PathInfo.mk "/x"
          (PathBackend.mk "svc1" 8080)]])).2
      = [UICall.list, UICall.create (IngressManifest.mk "ing2"
          [[HTTPIngressPath.mk "/x" "svc1" 8080]])]) :=
  ⟨(update_ingress_create_or_replace ["ing1"] (Except.ok ()) (Except.ok ()) "ing1"
      (IngressBodyRule.mk [PathInfo.mk "/x" (PathBackend.mk "svc1" 8080)]) []).1
      (by decide),
   (update_ingress_create_or_replace ["ing1"] (Except.ok ()) (Except.ok ()) "ing2"
      (IngressBodyRule.mk [PathInfo.mk "/x" (PathBackend.mk "svc1" 8080)]) []).2
      (by decide)⟩

/-- C6: when the live listing answers with a non-200 status,
`update_ingress` raises the `ServiceRequestError` and issues neither a
create nor a replace call (the trace holds the listing call only). -/
theorem update_ingress_bad_status (names : List String) (status : Nat)
    (replaceRes createRes : Except ε Unit) (ingress_name : String)
    (r0 : IngressBodyRule) (rest : List IngressBodyRule) (h : status ≠ 200) :
    update_ingress (Except.ok (names, status)) replaceRes createRes ingress_name
        (IngressBody.mk (r0 :: rest))
      = (Except.error UIError.badStatus, [UICall.list]) := by
  simp [update_ingress, _update_ingress_paths, h]

/-- Witness for `update_ingress_bad_status` at status 500. -/
theorem update_ingress_bad_status_witness :
    update_ingress (Except.ok (ε := String) (["ing1"], 500)) (Except.ok ())
        (Except.ok ()) "ing1"
        (IngressBody.mk [IngressBodyRule.mk [PathInfo.mk "/x"
          (PathBackend.mk "svc1" 8080)]])
      = (Except.error UIError.badStatus, [UICall.list]) :=
  update_ingress_bad_status ["ing1"] 500 (Except.ok ()) (Except.ok ()) "ing1"
    (IngressBodyRule.mk [PathInfo.mk "/x" (PathBackend.mk "svc1" 8080)]) []
    (by decide)

/-- C10: `_update_ingress_paths` reads only the first rule of the input
body, converting its paths in order; any further rules are ignored (the
whole `update_ingress` run is unchanged by dropping them), and every
manifest submitted carries exactly one rule holding those converted
paths. -/
theorem ingress_paths_first_rule_only (listing : Except ε (List String × Nat))
    (replaceRes createRes : Except ε Unit) (ingress_name : String)
    (r0 : IngressBodyRule) (rest : List IngressBodyRule) :
    (_update_ingress_paths (IngressBody.mk (r0 :: rest))
      = some (r0.http_paths.map (fun p => HTTPIngressPath.mk p.path
          p.backend.serviceName p.backend.servicePort)))
    ∧ (update_ingress listing replaceRes createRes ingress_name
          (IngressBody.mk (r0 :: rest))
        = update_ingress listing replaceRes createRes ingress_name
          (IngressBody.mk [r0]))
    ∧ (∀ m, (UICall.replace ingress_name m
          ∈ (update_ingress listing replaceRes createRes ingress_name
              (IngressBody.mk (r0 :: rest))).2
        ∨ UICall.create m
          ∈ (update_ingress listing replaceRes createRes ingress_name
              (IngressBody.mk (r0 :: rest))).2) →
        m = IngressManifest.mk ingress_name
          [r0.http_paths.map (fun p => HTTPIngressPath.mk p.path
            p.backend.serviceName p.backend.servicePort)]) := by
  refine ⟨rfl, rfl, ?_⟩
  intro m hm
  rcases listing with e | ns_st
  · simp [update_ingress, _update_ingress_paths] at hm
  · obtain ⟨ns, st⟩ := ns_st
    by_cases hst : st = 200
    · subst hst
      by_cases hmem : ingress_name ∈ ns
      · simp [update_ingress, _update_ingress_paths, hmem] at hm
        exact hm
      · simp [update_ingress, _update_ingress_paths, hmem] at hm
        exact hm
    · simp [update_ingress, _update_ingress_paths, hst] at hm

/-- Witness for `ingress_paths_first_rule_only`: a second input rule is
dropped and the submitted replace manifest holds exactly the first
rule's converted paths. -/
theorem ingress_paths_first_rule_only_witness :
    (_update_ingress_paths (IngressBody.mk [IngressBodyRule.mk [PathInfo.mk "/x"
        (PathBackend.mk "svc1" 8080)], IngressBodyRule.mk [PathInfo.mk "/y"
        (PathBackend.mk "svc2" 9090)]])
      = some [HTTPIngressPath.mk "/x" "svc1" 8080])
    ∧ (update_ingress (Except.ok (ε := String) (["ing1"], 200)) (Except.ok ())
        (Except.ok ()) "ing1"
        (IngressBody.mk [IngressBodyRule.mk [PathInfo.mk "/x"
          (PathBackend.mk "svc1" 8080)], IngressBodyRule.mk [PathInfo.mk "/y"
          (PathBackend.mk "svc2" 9090)]])
      = update_ingress (Except.ok (["ing1"], 200)) (Except.ok ())
        (Except.ok ()) "ing1"
        (IngressBody.mk [IngressBodyRule.mk [PathInfo.mk "/x"
          (PathBackend.mk "svc1" 8080)]])) :=
  ⟨(ingress_paths_first_rule_only (Except.ok (ε := String) (["ing1"], 200))
      (Except.ok ()) (Except.ok ()) "ing1"
      (IngressBodyRule.mk [PathInfo.mk "/x" (PathBackend.mk "svc1" 8080)])
      [IngressBodyRule.mk [PathInfo.mk "/y" (PathBackend.mk "svc2" 9090)]]).1,
   (ingress_paths_first_rule_only (Except.ok (ε := String) (["ing1"], 200))
      (Except.ok ()) (Except.ok ()) "ing1"
      (IngressBodyRule.mk [PathInfo.mk "/x" (PathBackend.mk "svc1" 8080)])
      [IngressBodyRule.mk [PathInfo.mk "/y" (PathBackend.mk "svc2" 9090)]]).2.1⟩

/-- C9: retry wrapping covers only the two creation calls.  The delete
calls of `destroy_service` and the list/replace/create calls of
`update_ingress` are each issued at most once (their traces are
duplicate-free and stop at the first failure, whose error propagates
unretried), while the workload- and network-service-creation invocation
counts of `create_service` are exactly those of the retry wrapper. -/
theorem retry_coverage_asymmetry (dd ds : Except ε Unit) (service : ContainerService)
    (listing : Except ε (List String × Nat)) (replaceRes createRes : Except ε Unit)
    (ingress_name : String) (r0 : IngressBodyRule) (rest : List IngressBodyRule)
    (cs_op : ServiceConfig → Nat → Except ε Unit)
    (cd_op : DeploymentConfig → Nat → Except ε Unit)
    (service_name docker_image : String) (replicas : Nat) (args : List String)
    (environment_vars mounts : List (String × String)) (gpus : Nat) :
    (∀ e, dd = Except.error e →
      destroy_service dd ds service
        = (Except.error e, [DestroyCall.deleteDeployment service.id]))
    ∧ (∀ e, dd = Except.ok () → ds = Except.error e →
      destroy_service dd ds service = (Except.error e,
        [DestroyCall.deleteDeployment service.id,
         DestroyCall.deleteService service.id]))
    ∧ (dd = Except.ok () → ds = Except.ok () →
      destroy_service dd ds service = (Except.ok (),
        [DestroyCall.deleteDeployment service.id,
         DestroyCall.deleteService service.id]))
    ∧ (∀ e, listing = Except.error e →
      update_ingress listing replaceRes createRes ingress_name
          (IngressBody.mk (r0 :: rest))
        = (Except.error (UIError.remote e), [UICall.list]))
    ∧ (∀ e names, replaceRes = Except.error e → ingress_name ∈ names →
      (update_ingress (Except.ok (names, 200)) replaceRes createRes ingress_name
          (IngressBody.mk (r0 :: rest))).1 = Except.error (UIError.remote e))
    ∧ (∀ e names, createRes = Except.error e → ingress_name ∉ names →
      (update_ingress (Except.ok (names, 200)) replaceRes createRes ingress_name
          (IngressBody.mk (r0 :: rest))).1 = Except.error (UIError.remote e))
    ∧ (destroy_service dd ds service).2.Nodup
    ∧ (update_ingress listing replaceRes createRes ingress_name
        (IngressBody.mk (r0 :: rest))).2.Nodup
    ∧ ((create_service cs_op cd_op service_name docker_image replicas args
          environment_vars mounts none gpus).2.2
        = (retried_func (cd_op (_create_deployment_config service_name docker_image
            replicas args environment_vars mounts none gpus))).2)
    ∧ (∀ p : Nat × Nat,
        (create_service cs_op cd_op service_name docker_image replicas args
          environment_vars mounts (some p) gpus).2.1
        = (retried_func (cs_op (_create_service_config service_name docker_image
            replicas args environment_vars mounts (some p) gpus))).2) := by
  refine ⟨?_, ?_, ?_, ?_, ?_, ?_, ?_, ?_, ?_, ?_⟩
  · intro e he
    subst he
    rfl
  · intro e hdd hds
    subst hdd
    subst hds
    rfl
  · intro hdd hds
    subst hdd
    subst hds
    rfl
  · intro e he
    subst he
    simp [update_ingress, _update_ingress_paths]
  · intro e names hrr hmem
    subst hrr
    simp [update_ingress, _update_ingress_paths, hmem]
  · intro e names hcr hmem
    subst hcr
    simp [update_ingress, _update_ingress_paths, hmem]
  · rcases dd with e | u
    · simp [destroy_service]
    · rcases ds with e | u <;> simp [destroy_service]
  · rcases listing with e | ns_st
    · simp [update_ingress, _update_ingress_paths]
    · obtain ⟨ns, st⟩ := ns_st
      by_cases hst : st = 200
      · subst hst
        by_cases hmem : ingress_name ∈ ns <;>
          simp [update_ingress, _update_ingress_paths, hmem]
      · simp [update_ingress, _update_ingress_paths, hst]
  · rcases h2 : retried_func (cd_op (_create_deployment_config service_name
        docker_image replicas args environment_vars mounts none gpus)) with ⟨o2, c2⟩
    rcases o2 with _ | r2
    · simp [create_service, h2]
    · rcases r2 with a2 | u2 <;> simp [create_service, h2]
  · intro p
    rcases h1 : retried_func (cs_op (_create_service_config service_name docker_image
        replicas args environment_vars mounts (some p) gpus)) with ⟨o1, c1⟩
    rcases o1 with _ | r1
    · rcases h2 : retried_func (cd_op (_create_deployment_config service_name
          docker_image replicas args environment_vars mounts (some p) gpus))
        with ⟨o2, c2⟩
      rcases o2 with _ | r2
      · simp [create_service, h1, h2]
      · rcases r2 with a2 | u2 <;> simp [create_service, h1, h2]
    · rcases r1 with a1 | u1
      · simp [create_service, h1]
      · rcases h2 : retried_func (cd_op (_create_deployment_config service_name
            docker_image replicas args environment_vars mounts (some p) gpus))
          with ⟨o2, c2⟩
        rcases o2 with _ | r2
        · simp [create_service, h1, h2]
        · rcases r2 with a2 | u2 <;> simp [create_service, h1, h2]

/-- Witness for `retry_coverage_asymmetry`: a failing workload delete
propagates after the one delete call; a failing listing propagates after
the one list call; both traces are duplicate-free; the creation call of
an always-failing workload creation is invoked 6 times (retried), unlike
every destroy/routing operation. -/
theorem retry_coverage_asymmetry_witness :
    (destroy_service (Except.error "boom") (Except.ok ())
        (ContainerService.mk "svc1" "svc1" none (ServiceInfo.mk "default" 0 "svc1" 1))
      = (Except.error "boom", [DestroyCall.deleteDeployment "svc1"]))
    ∧ (update_ingress (Except.error "boom") (Except.ok ()) (Except.ok ()) "ing1"
        (IngressBody.mk [IngressBodyRule.mk [PathInfo.mk "/x"
          (PathBackend.mk "svc1" 8080)]])
      = (Except.error (UIError.remote "boom"), [UICall.list]))
    ∧ (update_ingress (Except.error "boom") (Except.ok ()) (Except.ok ()) "ing1"
        (IngressBody.mk [IngressBodyRule.mk [PathInfo.mk "/x"
          (PathBackend.mk "svc1" 8080)]])).2.Nodup
    ∧ ((create_service (fun _ _ => (Except.ok () : Except String Unit))
        (fun _ _ => Except.error "boom") "svc1" "img:1" 1 [] [] [] none 0).2.2
      = 6) := by
  obtain ⟨h1, _, _, h4, _, _, _, h8, h9, _⟩ :=
    retry_coverage_asymmetry (Except.error "boom") (Except.ok ())
      (ContainerService.mk "svc1" "svc1" none (ServiceInfo.mk "default" 0 "svc1" 1))
      (Except.error (α := List String × Nat) "boom") (Except.ok ()) (Except.ok ())
      "ing1" (IngressBodyRule.mk [PathInfo.mk "/x" (PathBackend.mk "svc1" 8080)]) []
      (fun _ _ => (Except.ok () : Except String Unit))
      (fun _ _ => Except.error "boom") "svc1" "img:1" 1 [] [] [] 0
  refine ⟨h1 "boom" rfl, h4 "boom" rfl, h8, ?_⟩
  rw [h9]
  rfl

end SingaAuto
